import Mathlib

/-!
Verification of the stock-price scraper in `data_loader.py`.

This file is a shallow embedding of `StockScraper.get_stock_data`
(lines 65-178) and `StockScraper.close_driver` (lines 180-187).
Pure cell-level transformations (the pandas string cleanup and the
date parsing) become Lean functions on strings; the control flow of
the fetch, including the exception handlers, becomes a total function
from a fetch outcome to an explicit result type in which a caught
exception, the schema-gate failure and a returned data frame are
distinct constructors.  Machine floats only carry small decimal
literals here, so prices are modelled as rationals.

Line numbers in comments refer to `src/data_loader.py`.
-/

namespace DataLoader

/-- Model of the Python method `str.replace` as used through the pandas
accessor `Series.str.replace` with a literal pattern (lines 116, 120, 124):
replace every non-overlapping occurrence of `pat`, scanning left to right.
The fuel argument starts at the length of the scanned list; each step
consumes one unit of fuel and at least one character, so the fuel never
runs out on the initial call. -/
def replFuel (pat rep : List Char) : Nat → List Char → List Char
  | 0, l => l
  | _ + 1, [] => []
  | fuel + 1, c :: rest =>
    if pat ≠ [] ∧ pat.isPrefixOf (c :: rest) = true then
      rep ++ replFuel pat rep fuel (rest.drop (pat.length - 1))
    else
      c :: replFuel pat rep fuel rest

/-- Python `s.replace(pat, rep)` on whole strings. -/
def pyReplace (s pat rep : String) : String :=
  String.mk (replFuel pat.data rep.data s.data.length s.data)

/-- Numeric value of a list of decimal digit characters. -/
def natOfDigits (cs : List Char) : Nat :=
  cs.foldl (fun n c => 10 * n + (c.toNat - 48)) 0

/-- Model of `pd.to_numeric(x, errors="coerce")` on one string cell
(lines 117, 121, 125): parse an optionally signed plain decimal numeral;
anything else, including the literal token `NaN` produced by the earlier
dash replacement, yields a missing value (NaN in the data frame), which
we model as `none`. -/
def toNumeric (s : String) : Option Rat :=
  let cs := s.data
  let (neg, cs2) :=
    match cs with
    | '-' :: r => (true, r)
    | '+' :: r => (false, r)
    | _ => (false, cs)
  let intPart := cs2.takeWhile Char.isDigit
  let rest := cs2.dropWhile Char.isDigit
  match rest with
  | [] =>
    if intPart.isEmpty then none
    else some (mkRat (if neg then -(natOfDigits intPart : Int) else (natOfDigits intPart : Int)) 1)
  | '.' :: frac =>
    if frac.all Char.isDigit ∧ ¬(intPart.isEmpty ∧ frac.isEmpty) then
      let num : Nat := natOfDigits intPart * 10 ^ frac.length + natOfDigits frac
      some (mkRat (if neg then -(num : Int) else (num : Int)) (10 ^ frac.length))
    else none
  | _ => none

/-- Line 116: cleanup of the four price columns and the change column:
strip thousands separators, turn the dash placeholder into the NaN token,
then coerce with `pd.to_numeric(errors="coerce")` (line 117). -/
def cleanBasic (s : String) : Option Rat :=
  toNumeric (pyReplace (pyReplace s "," "") "---" "NaN")

/-- Line 120: cleanup of the percent-change column: strip the percent
sign, turn the dash placeholder into the NaN token, then coerce
(line 121). -/
def cleanPct (s : String) : Option Rat :=
  toNumeric (pyReplace (pyReplace s "%" "") "---" "NaN")

/-- Line 124: cleanup of the volume column: strip thousands separators,
strip the share-count unit suffix, turn the dash placeholder into the NaN
token, then coerce (line 125). -/
def cleanVol (s : String) : Option Rat :=
  toNumeric (pyReplace (pyReplace (pyReplace s "," "") "株" "") "---" "NaN")

/-- Calendar date as produced by `pd.to_datetime`. -/
structure Date where
  year : Nat
  month : Nat
  day : Nat
deriving DecidableEq

/-- Gregorian leap-year test, as used by the datetime library. -/
def isLeap (y : Nat) : Bool :=
  y % 4 == 0 && (y % 100 != 0 || y % 400 == 0)

/-- Number of days of month `m` in year `y`. -/
def daysInMonth (y m : Nat) : Nat :=
  if m = 2 then (if isLeap y then 29 else 28)
  else if m = 4 ∨ m = 6 ∨ m = 9 ∨ m = 11 then 30
  else 31

/-- Build a date when the month and day are in calendar range; otherwise
the parse is rejected (the strptime-style parsers validate the calendar,
for example a February 30 input coerces to NaT). -/
def mkDate? (y m d : Nat) : Option Date :=
  if 1 ≤ m ∧ m ≤ 12 ∧ 1 ≤ d ∧ d ≤ daysInMonth y m then some ⟨y, m, d⟩ else none

/-- Split a character list at every slash, keeping empty segments, as the
slash-separated date formats do. -/
def splitSlash : List Char → List (List Char)
  | [] => [[]]
  | c :: rest =>
    if c = '/' then [] :: splitSlash rest
    else
      match splitSlash rest with
      | [] => [[c]]
      | g :: gs => (c :: g) :: gs

/-- A numeric field of a strptime format: one up to `maxLen` digit
characters, nothing else. -/
def numField (maxLen : Nat) (cs : List Char) : Option Nat :=
  if (!cs.isEmpty) && (decide (cs.length ≤ maxLen)) && cs.all Char.isDigit then
    some (natOfDigits cs)
  else none

/-- The strptime rule for the two-digit year directive: 0-68 map into the
2000s, 69-99 into the 1900s. -/
def expandYY (y : Nat) : Nat :=
  if y ≤ 68 then 2000 + y else 1900 + y

/-- One cell of `pd.to_datetime(col, format="%y/%m/%d", errors="coerce")`
(line 137): two-digit year, slash, month, slash, day, with calendar
validation; any mismatch coerces to NaT, modelled as `none`. -/
def parseDateYY (s : String) : Option Date :=
  match splitSlash s.data with
  | [ys, ms, ds] => do
    let y ← numField 2 ys
    let m ← numField 2 ms
    let d ← numField 2 ds
    mkDate? (expandYY y) m d
  | _ => none

/-- One cell of `pd.to_datetime(col, format="%Y/%m/%d", errors="coerce")`
(line 144): four-digit year, slash, month, slash, day, with calendar
validation; any mismatch coerces to NaT, modelled as `none`. -/
def parseDateYYYY (s : String) : Option Date :=
  match splitSlash s.data with
  | [ys, ms, ds] => do
    let y ← numField 4 ys
    let m ← numField 2 ms
    let d ← numField 2 ds
    mkDate? y m d
  | _ => none

/-- Lines 127-147, the date conversion on the date column.  The source
wraps the first-stage parse in a try block whose except branch re-parses
the ORIGINAL strings in the four-digit-year format.  Both `pd.to_datetime`
calls use `errors="coerce"`, so neither ever raises; the only other
statement inside the inner try block is the debug log that reads
`iloc[0]`, which raises IndexError exactly when the frame has no rows.
Hence the except branch runs only for an empty column, where the
re-parse maps the empty list to itself. -/
def dateStage (orig : List String) : List (Option Date) :=
  if orig.isEmpty then orig.map parseDateYYYY
  else orig.map parseDateYY

/-- One normalized output row (the spec calls it a PriceRecord).  The
source keeps these as data-frame rows under the eight canonical column
names assigned at line 109. -/
structure PriceRecord where
  date : Option Date
  openPrice : Option Rat
  high : Option Rat
  low : Option Rat
  close : Option Rat
  change : Option Rat
  changePct : Option Rat
  volume : Option Rat
deriving DecidableEq

/-- The seven numeric fields of a row (lines 115-125), cell `i` being
column `i` of the parsed table; the date field is filled in by the date
stage. -/
def numericRow (row : List String) : PriceRecord :=
  { date := none
  , openPrice := cleanBasic (row.getD 1 "")
  , high := cleanBasic (row.getD 2 "")
  , low := cleanBasic (row.getD 3 "")
  , close := cleanBasic (row.getD 4 "")
  , change := cleanBasic (row.getD 5 "")
  , changePct := cleanPct (row.getD 6 "")
  , volume := cleanVol (row.getD 7 "") }

/-- Full normalization of one row: numeric cleanup plus the first-stage
date parse (the form the two-stage date conversion takes on a nonempty
column). -/
def normalizeRow (row : List String) : PriceRecord :=
  { numericRow row with date := parseDateYY (row.getD 0 "") }

/-- Column-wise normalization of the whole table body, zipping the rows
with the date column produced by the two-stage date conversion. -/
def normalizeRows (rows : List (List String)) : List PriceRecord :=
  (rows.zip (dateStage (rows.map (fun r => r.getD 0 "")))).map
    (fun p => { numericRow p.1 with date := p.2 })

/-- Sort key comparison of line 156, `sort_values(ascending=False)` with
the default `na_position="last"`: a row may precede another when its date
is larger, and a missing date never precedes a present one. -/
def rowLe (a b : PriceRecord) : Bool :=
  match a.date, b.date with
  | none, none => true
  | none, some _ => false
  | some _, none => true
  | some d1, some d2 =>
    decide (d2.year * 10000 + d2.month * 100 + d2.day
      ≤ d1.year * 10000 + d1.month * 100 + d1.day)

/-- The comparison as a relation, for the sorting lemmas. -/
def rowRel (a b : PriceRecord) : Prop := rowLe a b = true

instance : DecidableRel rowRel := fun a b => decEq (rowLe a b) true

instance : IsTotal PriceRecord rowRel where
  total a b := by
    unfold rowRel rowLe
    rcases a.date with _ | d1 <;> rcases b.date with _ | d2 <;> simp
    omega

instance : IsTrans PriceRecord rowRel where
  trans a b c := by
    unfold rowRel rowLe
    rcases a.date with _ | d1 <;> rcases b.date with _ | d2 <;>
      rcases c.date with _ | d3 <;> (simp; try omega)

/-- Line 156: sort the rows by date, descending, missing dates last.  The
source delegates to the pandas quicksort; we model it by any comparison
sort for the same key order. -/
def sortRecords (rs : List PriceRecord) : List PriceRecord :=
  List.insertionSort rowRel rs

/-- A raw parsed table as handed back by `pd.read_html` (line 97):
a column count and the body rows, each row holding one string cell per
column. -/
structure RawTable where
  cols : Nat
  rows : List (List String)
deriving DecidableEq

/-- The Python exceptions that the fetch distinguishes.  IndexError and
any unlisted exception fall to the final catch-all handler. -/
inductive PyErr where
  | timeoutExc
  | noSuchElementExc
  | webDriverExc
  | valueErr
  | indexErr
  | otherExc
deriving DecidableEq

/-- Lines 106-162, the table-processing branch of `get_stock_data` after
the table has been parsed.  `Except.error` models an exception escaping
to the outer handlers, `Except.ok none` models the schema-gate early
return of line 162, and `Except.ok (some rs)` the returned frame of
line 159.
- Line 108: the gate `len(df.columns) >= 8`.
- Line 109: assigning the eight canonical names; pandas raises a
  length-mismatch ValueError when the column count is not exactly eight.
- Line 112: the debug log reads `iloc[0]` of the date column, which
  raises IndexError when the table has no body rows.
- Lines 115-147: the cell-level cleanup and date conversion, which never
  raise (every coercion uses `errors="coerce"`, and the remaining
  `iloc[0]` logs at lines 138, 145 and 153 run only with at least one
  row present).
- Line 156: the descending sort. -/
def processTable (t : RawTable) : Except PyErr (Option (List PriceRecord)) :=
  if 8 ≤ t.cols then
    if t.cols ≠ 8 then Except.error PyErr.valueErr
    else if t.rows.isEmpty then Except.error PyErr.indexErr
    else Except.ok (some (sortRecords (normalizeRows t.rows)))
  else Except.ok none

/-- What the navigation phase (lines 80-100) produced: either one of the
modelled exceptions was raised (timeout waiting for the container, missing
table element, driver failure, and so on), or a parsed table. -/
inductive FetchOutcome where
  | raise (e : PyErr)
  | table (t : RawTable)
deriving DecidableEq

/-- Observable result of a call to `get_stock_data`: a returned data
frame, the schema-gate `None` of line 162, a `None` produced by an
exception handler, or an exception escaping to the caller. -/
inductive FetchResult where
  | series (rs : List PriceRecord)
  | schemaError
  | caught (e : PyErr)
  | propagated (e : PyErr)
deriving DecidableEq

/-- The handler chain of lines 164-178.  Each listed handler logs and
returns None; the trailing bare `except Exception` (line 176) matches
every remaining exception, so the chain is total and `none` (which would
mean an unhandled exception) is never produced. -/
def handlerFor : PyErr → Option FetchResult
  | PyErr.timeoutExc => some (FetchResult.caught PyErr.timeoutExc)
  | PyErr.noSuchElementExc => some (FetchResult.caught PyErr.noSuchElementExc)
  | PyErr.webDriverExc => some (FetchResult.caught PyErr.webDriverExc)
  | PyErr.valueErr => some (FetchResult.caught PyErr.valueErr)
  | e => some (FetchResult.caught e)

/-- `get_stock_data`, lines 65-178: run the fetch body and dispatch any
raised exception to the handler chain. -/
def getStockData : FetchOutcome → FetchResult
  | FetchOutcome.raise e => (handlerFor e).getD (FetchResult.propagated e)
  | FetchOutcome.table t =>
    match processTable t with
    | Except.ok (some rs) => FetchResult.series rs
    | Except.ok none => FetchResult.schemaError
    | Except.error e => (handlerFor e).getD (FetchResult.propagated e)

/-- The value the caller sees: the frame on success, `None` otherwise. -/
def toOption : FetchResult → Option (List PriceRecord)
  | FetchResult.series rs => some rs
  | _ => none

/-- State of the underlying browser handle: whether `quit()` would fail,
and whether it has already been quit. -/
structure DriverState where
  quitFails : Bool
  closed : Bool
deriving DecidableEq

/-- A `StockScraper` instance: `driver` is `none` when `__init__` raised
before the attribute was assigned (lines 48-54), so that
`hasattr(self, "driver")` is false. -/
structure ScraperState where
  driver : Option DriverState
deriving DecidableEq

/-- `self.driver.quit()` (line 184): marks the handle closed, or raises. -/
def quitDriver (d : DriverState) : Except PyErr DriverState :=
  if d.quitFails then Except.error PyErr.webDriverExc
  else Except.ok { d with closed := true }

/-- `close_driver`, lines 180-187: no-op without a driver attribute;
otherwise quit, and on failure log and keep the old state. -/
def closeDriver (s : ScraperState) : ScraperState :=
  match s.driver with
  | none => s
  | some d =>
    match quitDriver d with
    | Except.ok d2 => { driver := some d2 }
    | Except.error _ => s

/-- `close_driver` with the raised-or-returned distinction made explicit:
the except branch at lines 186-187 only logs, so no exception leaves the
method. -/
def closeDriverExc (s : ScraperState) : Except PyErr ScraperState :=
  match s.driver with
  | none => Except.ok s
  | some d =>
    match quitDriver d with
    | Except.ok d2 => Except.ok { driver := some d2 }
    | Except.error _ => Except.ok s

/-! Helper lemmas shared by the claim theorems. -/

/-- Both branches of the date stage agree with the plain first-stage
parse: the fallback branch is taken only for an empty column, where both
parses map the empty list to itself. -/
theorem dateStage_eq (l : List String) : dateStage l = l.map parseDateYY := by
  cases l with
  | nil => rfl
  | cons a r => simp [dateStage]

/-- Zipping the rows with the parsed date column is the same as the
row-wise normalization. -/
theorem zip_map_normalize (rows : List (List String)) :
    ((rows.zip ((rows.map (fun r => r.getD 0 "")).map parseDateYY)).map
      (fun p => { numericRow p.1 with date := p.2 })) = rows.map normalizeRow := by
  induction rows with
  | nil => rfl
  | cons a rest ih =>
    simp only [List.map_cons, List.zip_cons_cons]
    rw [ih]
    rfl

/-- Column-wise and row-wise normalization coincide. -/
theorem normalizeRows_map (rows : List (List String)) :
    normalizeRows rows = rows.map normalizeRow := by
  unfold normalizeRows
  rw [dateStage_eq]
  exact zip_map_normalize rows

/-- Normalization keeps every row. -/
theorem length_normalizeRows (rows : List (List String)) :
    (normalizeRows rows).length = rows.length := by
  rw [normalizeRows_map, List.length_map]

/-- Sorting keeps every row. -/
theorem length_sortRecords (rs : List PriceRecord) :
    (sortRecords rs).length = rs.length :=
  (List.perm_insertionSort rowRel rs).length_eq

/-- The sorted output is pairwise ordered by the descending-date key. -/
theorem sortRecords_sorted (rs : List PriceRecord) :
    List.Pairwise rowRel (sortRecords rs) :=
  List.sorted_insertionSort rowRel rs

/-- Every modelled exception has a handler, and each handler returns
None, so a raised exception always surfaces as a caught one. -/
theorem handlerFor_eq (e : PyErr) : handlerFor e = some (FetchResult.caught e) := by
  cases e <;> rfl

/-- Processing succeeds exactly on the well-formed shape: eight columns
and at least one row. -/
theorem processTable_ok {t : RawTable} (h8 : t.cols = 8) (hr : t.rows ≠ []) :
    processTable t = Except.ok (some (sortRecords (normalizeRows t.rows))) := by
  simp [processTable, h8, hr]

/-- With more than eight columns the rename of line 109 raises a
length-mismatch ValueError. -/
theorem processTable_valueErr {t : RawTable} (h : 8 < t.cols) :
    processTable t = Except.error PyErr.valueErr := by
  have h8 : 8 ≤ t.cols := le_of_lt h
  have hne : t.cols ≠ 8 := by omega
  simp [processTable, h8, hne]

/-- With eight columns and no rows the debug log of line 112 raises an
IndexError. -/
theorem processTable_indexErr {t : RawTable} (h8 : t.cols = 8) (hr : t.rows = []) :
    processTable t = Except.error PyErr.indexErr := by
  simp [processTable, h8, hr]

/-- With fewer than eight columns the gate of line 108 returns None
without raising. -/
theorem processTable_schema {t : RawTable} (h : t.cols < 8) :
    processTable t = Except.ok none := by
  have : ¬ 8 ≤ t.cols := by omega
  simp [processTable, this]

/-- Inversion: a returned series comes from a table with exactly eight
columns and at least one row, and equals the sorted normalization of its
rows. -/
theorem series_inv {t : RawTable} {rs : List PriceRecord}
    (h : getStockData (FetchOutcome.table t) = FetchResult.series rs) :
    t.cols = 8 ∧ t.rows ≠ [] ∧ rs = sortRecords (normalizeRows t.rows) := by
  simp only [getStockData] at h
  rcases Nat.lt_trichotomy t.cols 8 with hlt | heq | hgt
  · rw [processTable_schema hlt] at h
    simp at h
  · by_cases hr : t.rows = []
    · rw [processTable_indexErr heq hr] at h
      simp [handlerFor_eq] at h
    · rw [processTable_ok heq hr] at h
      refine ⟨heq, hr, ?_⟩
      simp only [FetchResult.series.injEq] at h
      exact h.symm
  · rw [processTable_valueErr hgt] at h
    simp [handlerFor_eq] at h

/-! Claim theorems. -/

/-- C1: the claimed second-stage date fallback never fires.  On the input
date string 2023/01/15, which the two-digit-year format rejects and the
four-digit-year format accepts, the returned record has a null date: the
first `pd.to_datetime` call uses coercion and therefore never raises, so
the except branch holding the four-digit-year re-parse is unreachable and
the coerced NaT stands, contradicting the claim (and the comments in the
source) that such a value parses via the fallback. -/
theorem C1_fallback_never_runs :
    parseDateYY "2023/01/15" = none ∧
    parseDateYYYY "2023/01/15" = some ⟨2023, 1, 15⟩ ∧
    getStockData (FetchOutcome.table ⟨8,
      [["2023/01/15", "100", "110", "90", "105", "5", "5.0%", "1,000株"]]⟩) =
      FetchResult.series
        [{ date := none, openPrice := some 100, high := some 110, low := some 90,
           close := some 105, change := some 5, changePct := some 5, volume := some 1000 }] := by
  decide

/-- C2 counterexample: a parsed table with nine columns does not come
back as a normalized series with the extra column discarded; assigning
the eight canonical names raises a length-mismatch ValueError, the
ValueError handler catches it, and the call returns None. -/
theorem C2_nine_column_counterexample :
    getStockData (FetchOutcome.table ⟨9, [["a", "b", "c", "d", "e", "f", "g", "h", "i"]]⟩) =
      FetchResult.caught PyErr.valueErr ∧
    toOption (getStockData
      (FetchOutcome.table ⟨9, [["a", "b", "c", "d", "e", "f", "g", "h", "i"]]⟩)) = none := by
  decide

/-- C2 amended: for every parsed table with strictly more than eight
columns, the canonical-name assignment raises a ValueError, which the
handler of line 173 turns into a None return; no series is produced. -/
theorem C2_extra_columns_yield_none (t : RawTable) (h : 8 < t.cols) :
    getStockData (FetchOutcome.table t) = FetchResult.caught PyErr.valueErr ∧
    toOption (getStockData (FetchOutcome.table t)) = none := by
  have hp := processTable_valueErr h
  constructor
  · simp [getStockData, hp, handlerFor_eq]
  · simp [getStockData, hp, handlerFor_eq, toOption]

/-- C2 witness: the amended claim at a concrete ten-column table. -/
theorem C2_extra_columns_yield_none_witness :
    getStockData (FetchOutcome.table ⟨10, [["x", "y"]]⟩) = FetchResult.caught PyErr.valueErr ∧
    toOption (getStockData (FetchOutcome.table ⟨10, [["x", "y"]]⟩)) = none :=
  C2_extra_columns_yield_none ⟨10, [["x", "y"]]⟩ (by decide)

/-- C3 counterexample: a structurally valid eight-column table with zero
data rows does not yield an empty series; the debug log of line 112 reads
the first date cell, which raises IndexError on an empty frame, the
catch-all handler swallows it and the call returns None. -/
theorem C3_empty_table_counterexample :
    getStockData (FetchOutcome.table ⟨8, []⟩) = FetchResult.caught PyErr.indexErr ∧
    toOption (getStockData (FetchOutcome.table ⟨8, []⟩)) = none := by
  decide

/-- C3 amended: every table with at least eight columns and zero data
rows makes `get_stock_data` return None (never an empty series): with
exactly eight columns the first-cell debug log raises IndexError, with
more the column rename raises ValueError first, and both are caught. -/
theorem C3_empty_table_yields_none (t : RawTable) (h8 : 8 ≤ t.cols) (hr : t.rows = []) :
    toOption (getStockData (FetchOutcome.table t)) = none := by
  rcases eq_or_lt_of_le h8 with heq | hlt
  · simp [getStockData, processTable_indexErr heq.symm hr, handlerFor_eq, toOption]
  · simp [getStockData, processTable_valueErr hlt, handlerFor_eq, toOption]

/-- C3 witness: the amended claim at a concrete empty nine-column table. -/
theorem C3_empty_table_yields_none_witness :
    toOption (getStockData (FetchOutcome.table ⟨9, []⟩)) = none :=
  C3_empty_table_yields_none ⟨9, []⟩ (by decide) (by decide)

/-- C4 counterexample: normalization does raise for some well-formed
tables with at least eight columns: with nine columns the canonical-name
assignment of line 109 raises a length-mismatch ValueError inside the
processing body (the error is then caught, so the call still returns
None rather than propagating). -/
theorem C4_normalization_raises_counterexample :
    processTable ⟨9, []⟩ = Except.error PyErr.valueErr := by
  rfl

/-- C4 amended: no exception ever propagates out of `get_stock_data` (the
handler chain ends in a bare except), and the processing body raises no
exception when the table has exactly eight columns and at least one data
row, in which case a series is returned. -/
theorem C4_no_exception_propagates :
    (∀ (o : FetchOutcome) (e : PyErr), getStockData o ≠ FetchResult.propagated e) ∧
    (∀ t : RawTable, t.cols = 8 → t.rows ≠ [] →
      ∃ rs, processTable t = Except.ok (some rs)) := by
  constructor
  · intro o e
    cases o with
    | raise e2 => simp [getStockData, handlerFor_eq]
    | table t =>
      cases hp : processTable t with
      | ok v => cases v <;> simp [getStockData, hp]
      | error e2 => simp [getStockData, hp, handlerFor_eq]
  · intro t h8 hr
    exact ⟨_, processTable_ok h8 hr⟩

/-- C4 witness: the amended claim at a raised generic exception and at a
concrete well-formed one-row table. -/
theorem C4_no_exception_propagates_witness :
    getStockData (FetchOutcome.raise PyErr.otherExc) ≠ FetchResult.propagated PyErr.otherExc ∧
    ∃ rs, processTable ⟨8, [["23/04/01", "1", "2", "3", "4", "5", "6", "7"]]⟩ =
      Except.ok (some rs) :=
  ⟨C4_no_exception_propagates.1 (FetchOutcome.raise PyErr.otherExc) PyErr.otherExc,
   C4_no_exception_propagates.2 ⟨8, [["23/04/01", "1", "2", "3", "4", "5", "6", "7"]]⟩
     (by decide) (by decide)⟩

/-- C5: a table with fewer than eight columns hits the column-count gate
of line 108: the call returns None through the early return of line 162,
never a partial series, and that outcome is distinct from the
element-not-found handler outcome. -/
theorem C5_schema_gate (t : RawTable) (h : t.cols < 8) :
    getStockData (FetchOutcome.table t) = FetchResult.schemaError ∧
    toOption (getStockData (FetchOutcome.table t)) = none ∧
    (∀ rs, getStockData (FetchOutcome.table t) ≠ FetchResult.series rs) ∧
    FetchResult.schemaError ≠ FetchResult.caught PyErr.noSuchElementExc := by
  have hp := processTable_schema h
  refine ⟨?_, ?_, ?_, by simp⟩
  · simp [getStockData, hp]
  · simp [getStockData, hp, toOption]
  · intro rs
    simp [getStockData, hp]

/-- C5 witness: the gate at a concrete seven-column table. -/
theorem C5_schema_gate_witness :
    getStockData (FetchOutcome.table ⟨7, [["a", "b", "c", "d", "e", "f", "g"]]⟩) =
      FetchResult.schemaError ∧
    toOption (getStockData (FetchOutcome.table ⟨7, [["a", "b", "c", "d", "e", "f", "g"]]⟩)) =
      none ∧
    (∀ rs, getStockData (FetchOutcome.table ⟨7, [["a", "b", "c", "d", "e", "f", "g"]]⟩) ≠
      FetchResult.series rs) ∧
    FetchResult.schemaError ≠ FetchResult.caught PyErr.noSuchElementExc :=
  C5_schema_gate ⟨7, [["a", "b", "c", "d", "e", "f", "g"]]⟩ (by decide)

/-- C6: the numeric cleanup maps a thousands-separated numeral to its
value, the dash placeholder to a missing value, a percent string to its
bare value, and a volume string with separators and the share unit to the
plain count; an unparseable cell coerces to a missing value instead of
raising. -/
theorem C6_numeric_round_trip :
    cleanBasic "1,234" = some 1234 ∧
    cleanBasic "---" = none ∧
    cleanPct "12.5%" = some (12.5 : Rat) ∧
    cleanVol "1,000,000株" = some 1000000 ∧
    cleanBasic "abc" = none ∧
    cleanVol "---" = none := by
  refine ⟨by decide, by decide, ?_, by decide, by decide, by decide⟩
  have h : cleanPct "12.5%" = some (mkRat 125 10) := by decide
  rw [h]
  congr 1
  norm_num [mkRat, Rat.normalize]

/-- C7: every returned series is pairwise ordered by the descending-date
key of line 156, and the three rows dated 2023-01-01, 2023-01-03 and
2023-01-02 come back in the order 01-03, 01-02, 01-01. -/
theorem C7_sorted_descending :
    (∀ (t : RawTable) (rs : List PriceRecord),
      getStockData (FetchOutcome.table t) = FetchResult.series rs →
      List.Pairwise rowRel rs) ∧
    getStockData (FetchOutcome.table ⟨8,
      [["23/01/01", "1", "1", "1", "1", "1", "1", "1"],
       ["23/01/03", "1", "1", "1", "1", "1", "1", "1"],
       ["23/01/02", "1", "1", "1", "1", "1", "1", "1"]]⟩) =
      FetchResult.series
        [{ date := some ⟨2023, 1, 3⟩, openPrice := some 1, high := some 1, low := some 1,
           close := some 1, change := some 1, changePct := some 1, volume := some 1 },
         { date := some ⟨2023, 1, 2⟩, openPrice := some 1, high := some 1, low := some 1,
           close := some 1, change := some 1, changePct := some 1, volume := some 1 },
         { date := some ⟨2023, 1, 1⟩, openPrice := some 1, high := some 1, low := some 1,
           close := some 1, change := some 1, changePct := some 1, volume := some 1 }] := by
  refine ⟨?_, by decide⟩
  intro t rs h
  obtain ⟨-, -, hrs⟩ := series_inv h
  subst hrs
  exact sortRecords_sorted _

/-- C7 witness: the general sortedness applied to a concrete two-row
table. -/
theorem C7_sorted_descending_witness :
    List.Pairwise rowRel
      [{ date := some ⟨2023, 6, 9⟩, openPrice := some 1, high := some 1, low := some 1,
         close := some 1, change := some 1, changePct := some 1, volume := some 1 },
       { date := some ⟨2023, 6, 1⟩, openPrice := some 1, high := some 1, low := some 1,
         close := some 1, change := some 1, changePct := some 1, volume := some 1 }] :=
  C7_sorted_descending.1
    ⟨8, [["23/06/01", "1", "1", "1", "1", "1", "1", "1"],
         ["23/06/09", "1", "1", "1", "1", "1", "1", "1"]]⟩
    [{ date := some ⟨2023, 6, 9⟩, openPrice := some 1, high := some 1, low := some 1,
       close := some 1, change := some 1, changePct := some 1, volume := some 1 },
     { date := some ⟨2023, 6, 1⟩, openPrice := some 1, high := some 1, low := some 1,
       close := some 1, change := some 1, changePct := some 1, volume := some 1 }]
    (by decide)

/-- C8: normalization keeps every data row, so a returned series has
exactly as many records as the parsed table had body rows; in particular
a row whose date string parses under neither date format is kept with a
null date. -/
theorem C8_row_count_preserved :
    (∀ (t : RawTable) (rs : List PriceRecord),
      getStockData (FetchOutcome.table t) = FetchResult.series rs →
      rs.length = t.rows.length) ∧
    getStockData (FetchOutcome.table ⟨8, [["foo", "1", "1", "1", "1", "1", "1", "1"]]⟩) =
      FetchResult.series
        [{ date := none, openPrice := some 1, high := some 1, low := some 1,
           close := some 1, change := some 1, changePct := some 1, volume := some 1 }] := by
  refine ⟨?_, by decide⟩
  intro t rs h
  obtain ⟨-, -, hrs⟩ := series_inv h
  subst hrs
  rw [length_sortRecords, length_normalizeRows]

/-- C8 witness: the row-count preservation applied to a concrete
two-row table, one row with an unparseable date. -/
theorem C8_row_count_preserved_witness :
    ([{ date := some ⟨2023, 12, 25⟩, openPrice := some 2, high := some 2, low := some 2,
        close := some 2, change := some 2, changePct := some 2, volume := some 2 },
      { date := none, openPrice := some 1, high := some 1, low := some 1,
        close := some 1, change := some 1, changePct := some 1, volume := some 1 }] :
      List PriceRecord).length =
    ([["bad", "1", "1", "1", "1", "1", "1", "1"],
      ["23/12/25", "2", "2", "2", "2", "2", "2", "2"]] : List (List String)).length :=
  C8_row_count_preserved.1
    ⟨8, [["bad", "1", "1", "1", "1", "1", "1", "1"],
         ["23/12/25", "2", "2", "2", "2", "2", "2", "2"]]⟩
    [{ date := some ⟨2023, 12, 25⟩, openPrice := some 2, high := some 2, low := some 2,
       close := some 2, change := some 2, changePct := some 2, volume := some 2 },
     { date := none, openPrice := some 1, high := some 1, low := some 1,
       close := some 1, change := some 1, changePct := some 1, volume := some 1 }]
    (by decide)

/-- C9: `close_driver` never lets an exception escape, and calling it a
second time changes nothing; a scraper whose init failed before the
driver attribute was assigned is a no-op case covered by the
quantification over every state, as is a failing quit call. -/
theorem C9_close_driver_safe (s : ScraperState) :
    closeDriverExc s = Except.ok (closeDriver s) ∧
    closeDriver (closeDriver s) = closeDriver s := by
  obtain ⟨d⟩ := s
  rcases d with _ | ⟨qf, cl⟩
  · exact ⟨rfl, rfl⟩
  · cases qf <;> simp [closeDriver, closeDriverExc, quitDriver]

/-- C9 witness: safety at a concrete state whose quit call fails. -/
theorem C9_close_driver_safe_witness :
    closeDriverExc ⟨some ⟨true, false⟩⟩ = Except.ok (closeDriver ⟨some ⟨true, false⟩⟩) ∧
    closeDriver (closeDriver ⟨some ⟨true, false⟩⟩) = closeDriver ⟨some ⟨true, false⟩⟩ :=
  C9_close_driver_safe ⟨some ⟨true, false⟩⟩

/-- C10: in every returned series, a record with a null date is never
followed by a record with a present date: the sort key order never lets
a missing date precede a present one, so nulls collect at the end. -/
theorem C10_null_dates_sort_last :
    ∀ (t : RawTable) (rs : List PriceRecord),
      getStockData (FetchOutcome.table t) = FetchResult.series rs →
      List.Pairwise (fun a b => a.date = none → b.date = none) rs := by
  intro t rs h
  obtain ⟨-, -, hrs⟩ := series_inv h
  subst hrs
  refine (sortRecords_sorted _).imp ?_
  intro a b hab hna
  cases hb : b.date with
  | none => rfl
  | some d2 =>
    unfold rowRel rowLe at hab
    rw [hna, hb] at hab
    simp at hab

/-- C10 witness: the null-last ordering applied to a concrete table
mixing a null-date row and a dated row. -/
theorem C10_null_dates_sort_last_witness :
    List.Pairwise (fun a b : PriceRecord => a.date = none → b.date = none)
      [{ date := some ⟨2023, 5, 2⟩, openPrice := some 3, high := some 3, low := some 3,
         close := some 3, change := some 3, changePct := some 3, volume := some 3 },
       { date := none, openPrice := some 1, high := some 1, low := some 1,
         close := some 1, change := some 1, changePct := some 1, volume := some 1 }] :=
  C10_null_dates_sort_last
    ⟨8, [["zz", "1", "1", "1", "1", "1", "1", "1"],
         ["23/05/02", "3", "3", "3", "3", "3", "3", "3"]]⟩
    [{ date := some ⟨2023, 5, 2⟩, openPrice := some 3, high := some 3, low := some 3,
       close := some 3, change := some 3, changePct := some 3, volume := some 3 },
     { date := none, openPrice := some 1, high := some 1, low := some 1,
       close := some 1, change := some 1, changePct := some 1, volume := some 1 }]
    (by decide)

end DataLoader
